import Mathlib

/-!
Shallow embedding of the experience-replay ring buffer in
`src/models/frames/buffers/buffer.py` (class `Buffer`), together with the
parts of the `Transition` record type that the buffer relies on.
`transition.py` is not part of the sources, so the `Transition` operations
(`keys`, `has_keys`, `to`, item lookup) are modelled from the spec, as noted
on each definition.  Tensors are modelled as device-tagged lists of integer
rows (enough to express concatenation along dimension 0 and the
`(batch_size, 1)` view used for scalars); randomness is modelled by passing
the random choices (a permutation for `random.sample`, a list of draws for
`random.randint`) as explicit oracle arguments.
-/

/-- An array-like value: either a Python scalar or a device-tagged tensor
whose contents are a list of rows (dimension 0 is the list of rows, so
`torch.cat(_, dim=0)` is row-list concatenation and
`torch.tensor(scalars).view(n, -1)` is the list of one-element rows). -/
inductive TVal where
  | scalar (v : Int)
  | tensor (dev : String) (rows : List (List Int))
deriving Repr, DecidableEq

/-- `x.to(device)` on a value: moves a tensor to the device, and is the
identity on scalars (custom attributes are scalars per the buffer's
docstring warning). -/
def TVal.to (dev : String) : TVal → TVal
  | .scalar v => .scalar v
  | .tensor _ rows => .tensor dev rows

/-- Whether a value is a tensor (`torch.is_tensor`). -/
def TVal.isTensor : TVal → Bool
  | .scalar _ => false
  | .tensor _ _ => true

/-- The rows of a tensor value (dimension-0 slices); scalars have none. -/
def TVal.rows : TVal → List (List Int)
  | .scalar _ => []
  | .tensor _ rs => rs

/-- The scalar content of a value (0 for tensors; only used on scalars). -/
def TVal.scalarVal : TVal → Int
  | .scalar v => v
  | .tensor _ _ => 0

/-- Modelled from the spec: a `Transition` record (the `Record` of the spec,
`transition.py` being absent from the sources) holds three attribute
categories: `major` maps an attribute name to a sub-key → array-like
mapping, `sub` maps an attribute name to a single scalar/array-like value,
and `custom` maps arbitrary extra names to values. -/
structure Transition where
  major : List (String × List (String × TVal))
  sub : List (String × TVal)
  custom : List (String × TVal)
deriving Repr, DecidableEq

instance : Inhabited Transition := ⟨⟨[], [], []⟩⟩

/-- The major attribute names of a record (`Transition.major_attr`). -/
def Transition.major_attr (tr : Transition) : List String :=
  tr.major.map Prod.fst

/-- The sub attribute names of a record (`Transition.sub_attr`). -/
def Transition.sub_attr (tr : Transition) : List String :=
  tr.sub.map Prod.fst

/-- Modelled from the spec: `Transition.keys()` lists every attribute name
present on the record — major, sub and custom (the spec's wildcard rule
expands to "every attribute name present on the first sampled Record that
is neither a major nor a sub attribute", so `keys()` covers custom names). -/
def Transition.keys (tr : Transition) : List String :=
  tr.major.map Prod.fst ++ tr.sub.map Prod.fst ++ tr.custom.map Prod.fst

/-- Modelled from the spec: `Transition.has_keys(ks)` — the required
attributes "must all be present as either major or sub attributes". -/
def Transition.has_keys (tr : Transition) (ks : List String) : Bool :=
  ks.all fun k => (tr.major_attr ++ tr.sub_attr).contains k

/-- Modelled from the spec: `Transition.to(device)` relocates every
array-like value held by the record to the given device. -/
def Transition.to (tr : Transition) (dev : String) : Transition :=
  { major := tr.major.map fun p => (p.1, p.2.map fun q => (q.1, q.2.to dev)),
    sub := tr.sub.map fun p => (p.1, p.2.to dev),
    custom := tr.custom.map fun p => (p.1, p.2.to dev) }

/-- Every tensor held by the record is tagged with device `dev`. -/
def Transition.onDevice (tr : Transition) (dev : String) : Bool :=
  (tr.major.all fun p => p.2.all fun q => q.2.to dev == q.2) &&
  (tr.sub.all fun p => p.2.to dev == p.2) &&
  (tr.custom.all fun p => p.2.to dev == p.2)

/-- `item[attr]` when `attr` is a major attribute: the sub-key → value
mapping stored under it. -/
def Transition.getDict (tr : Transition) (k : String) :
    Option (List (String × TVal)) :=
  (tr.major.find? fun p => p.1 == k).map Prod.snd

/-- Modelled from the spec: `item[attr]` for a non-major attribute resolves
to the record's sub value, else its custom value. -/
def Transition.getAny (tr : Transition) (k : String) : Option TVal :=
  match tr.sub.find? fun p => p.1 == k with
  | some p => some p.2
  | none => (tr.custom.find? fun p => p.1 == k).map Prod.snd

/-- Modelled from the spec: equality of attribute-key sets (the admission
check "candidate's key set must equal the key set of the Records already
stored" is a set comparison). -/
def keySetEq (a b : List String) : Bool :=
  (a.all fun k => b.contains k) && (b.all fun k => a.contains k)

/-- The error outcomes of the buffer code, one constructor per `raise` site
(plus the errors the underlying primitives raise): `schemaMissing` is the
`ValueError` for missing required attributes (it carries the missing key
names), `schemaMismatch` is the `ValueError` "Transition object has
different attributes!" (it carries nothing), `lookupErr` is the
`RuntimeError` for an unknown sample-method name (it carries the name),
`emptyRange` is the `ValueError` that `random.randint(0, -1)` raises,
`indexErr` is the `IndexError` of `batch[0]` on an empty batch, `keyErr` is
the `KeyError` of `item[attr]` on a missing attribute, and `shapeErr`
stands for the torch errors of `cat`/`tensor` on malformed input. -/
inductive BufError where
  | schemaMissing (keys : List String)
  | schemaMismatch
  | lookupErr (name : String)
  | emptyRange
  | indexErr
  | keyErr
  | shapeErr
deriving Repr, DecidableEq

/-- The `Buffer`'s state: `buffer_size` is the fixed capacity, `buffer` the
list of resident transitions, and `index` the ring write cursor. -/
structure Buffer where
  buffer_size : Nat
  buffer_device : String
  buffer : List Transition
  index : Nat
deriving Repr, DecidableEq

/-- `Buffer.size()`: the number of resident transitions. -/
def Buffer.size (b : Buffer) : Nat := b.buffer.length

/-- `Buffer.clear()`: `self.buffer.clear()` — empties the list; the source
does not touch `self.index`. -/
def Buffer.clear (b : Buffer) : Buffer := { b with buffer := [] }

/-- The default required attributes of `append`. -/
def requiredDefault : List String :=
  ["state", "action", "next_state", "reward", "terminal"]

/-- The keys reported missing by `append`:
`set(required_attrs) - set(transition.keys())`. -/
def missingKeys (tr : Transition) (req : List String) : List String :=
  req.filter fun k => !(tr.keys.contains k)

/-- `Buffer.append(transition, required_attrs)`.  Returns the `position`
result (or the raised error), the buffer's state after the call, and the
transition object after the call (Python mutates the candidate in place via
`transition.to(self.buffer_device)`, which runs after the required-attribute
check but before the schema-mismatch check). -/
def Buffer.append (b : Buffer) (tr : Transition) (req : List String) :
    Except BufError Nat × Buffer × Transition :=
  if !tr.has_keys req then
    (.error (.schemaMissing (missingKeys tr req)), b, tr)
  else
    let tr2 := tr.to b.buffer_device
    match b.buffer with
    | f :: _ =>
      if !keySetEq f.keys tr2.keys then
        (.error .schemaMismatch, b, tr2)
      else appendAdmit b tr2
    | [] => appendAdmit b tr2
where
  /-- The admission steps of `append` once validation passed: trim if over
  capacity, then ring-overwrite at `index` when full, else push at the
  end. -/
  appendAdmit (b : Buffer) (tr2 : Transition) :
      Except BufError Nat × Buffer × Transition :=
    let buf :=
      if b.buffer.length > b.buffer_size then
        b.buffer.drop (b.buffer.length - b.buffer_size)
      else b.buffer
    if buf.length = b.buffer_size then
      (.ok b.index,
       { b with buffer := buf.set b.index tr2,
                index := (b.index + 1) % b.buffer_size }, tr2)
    else
      (.ok buf.length, { b with buffer := buf ++ [tr2] }, tr2)

/-- The buffer state after a successful `append` (projection helper). -/
def Buffer.appendSt (b : Buffer) (tr : Transition) : Buffer :=
  (b.append tr requiredDefault).2.1

/-- `Buffer.sample_method_random_unique(buffer, batch_size)`:
`random.sample` without replacement, determinized by an oracle permutation
`perm` of the index range — `random.sample(buffer, k)` is the first `k`
entries of the shuffled index list, mapped through the buffer. -/
def sample_method_random_unique (perm : List Nat) (buffer : List Transition)
    (batch_size : Nat) : List Transition × Nat :=
  let k := if buffer.length < batch_size then buffer.length else batch_size
  ((perm.take k).map fun i => buffer.getD i default, k)

/-- `Buffer.sample_method_random(buffer, batch_size)`: `batch_size`
independent draws of `random.randint(0, len(buffer) - 1)`, determinized by
an oracle draw list (`draws.getD i 0 % buffer.length` is the i-th draw).
`random.randint(0, -1)` raises `ValueError` (empty range), which happens
exactly when the buffer is empty and at least one draw is made. -/
def sample_method_random (draws : List Nat) (buffer : List Transition)
    (batch_size : Nat) : Except BufError (List Transition × Nat) :=
  if batch_size ≠ 0 ∧ buffer.length = 0 then .error .emptyRange
  else
    .ok ((List.range batch_size).map
          (fun i => buffer.getD (draws.getD i 0 % buffer.length) default),
         batch_size)

/-- `Buffer.sample_method_all(buffer, _)`: the whole buffer, in storage
order, with its length as the realized size. -/
def sample_method_all (buffer : List Transition) (_batch_size : Nat) :
    List Transition × Nat :=
  (buffer, buffer.length)

/-- The result of `make_tensor_from_batch`: `None`, a tensor, or the raw
per-record value list (the not-concatenated case). -/
inductive MTResult where
  | none
  | tensor (v : TVal)
  | raw (l : List TVal)
deriving Repr, DecidableEq

/-- `Buffer.make_tensor_from_batch(batch, device, concatenate)`: `None` on
an empty batch; the batch unchanged when not concatenating; when
concatenating, `torch.cat([it.to(device) for it in batch], dim=0).to(device)`
if the first element is a tensor (all elements must then be tensors with
equal row widths), and `torch.tensor(batch, device).view(batch_size, -1)` —
one single-element row per scalar — otherwise (all elements must then be
scalars). -/
def make_tensor_from_batch (batch : List TVal) (device : String)
    (concatenate : Bool) : Except BufError MTResult :=
  match batch with
  | [] => .ok .none
  | item :: _ =>
    if concatenate then
      if item.isTensor then
        if batch.all (fun v => v.isTensor) &&
            sameWidths (batch.flatMap TVal.rows) then
          .ok (.tensor (.tensor device (batch.flatMap TVal.rows)))
        else .error .shapeErr
      else
        if batch.all fun v => !v.isTensor then
          .ok (.tensor (.tensor device (batch.map fun v => [v.scalarVal])))
        else .error .shapeErr
    else .ok (.raw batch)
where
  /-- `torch.cat` along dimension 0 needs the non-leading dimensions to
  agree: every row has the width of the first. -/
  sameWidths (rows : List (List Int)) : Bool :=
    match rows with
    | [] => true
    | r :: rs => rs.all fun q => q.length == r.length

/-- One resolved entry of the post-processed batch: `None` (empty-batch
case), a sub-key → stacked-value mapping (major attribute), or a single
stacked value (sub / custom attribute). -/
inductive AttrOut where
  | none
  | dict (entries : List (String × MTResult))
  | single (v : MTResult)
deriving Repr, DecidableEq

/-- `[item[attr] for item in batch]` for a non-major attribute: collects
each record's value in order, failing with a key error where Python's
`item[attr]` would. -/
def collectVals : List Transition → String → Except BufError (List TVal)
  | [], _ => .ok []
  | item :: rest, k =>
    match item.getAny k with
    | some v => do
      let tail ← collectVals rest k
      pure (v :: tail)
    | none => .error .keyErr

/-- `[item[attr][sub_k].to(device) for item in batch]` for a major
attribute (the source moves each element to the device before stacking). -/
def collectMajorVals : List Transition → String → String → String →
    Except BufError (List TVal)
  | [], _, _, _ => .ok []
  | item :: rest, attr, sub_k, device =>
    match item.getDict attr with
    | some d =>
      match d.find? fun p => p.1 == sub_k with
      | some p => do
        let tail ← collectMajorVals rest attr sub_k device
        pure (p.2.to device :: tail)
      | none => .error .keyErr
    | none => .error .keyErr

/-- The loop body of `post_process_batch` over `sample_attrs`, carrying the
`used_keys` accumulator.  The wildcard branch mirrors the source exactly:
its concatenation flag is `concatenate and attr in additional_concat_attrs`
where `attr` is the wildcard string itself, not the expanded key, and it
does not extend `used_keys`. -/
def ppGo (batch : List Transition) (first : Transition) (device : String)
    (concatenate : Bool) (aca : List String)
    (major_attr sub_attr : List String) :
    List String → List String → Except BufError (List AttrOut)
  | [], _ => .ok []
  | attr :: rest, used =>
    if major_attr.contains attr then do
      let entries ← (first.getDict attr |>.getD []).mapM fun p => do
        let vals ← collectMajorVals batch attr p.1 device
        let r ← make_tensor_from_batch vals device concatenate
        pure (p.1, r)
      let tail ← ppGo batch first device concatenate aca major_attr sub_attr
        rest (used ++ [attr])
      pure (AttrOut.dict entries :: tail)
    else if sub_attr.contains attr then do
      let vals ← collectVals batch attr
      let r ← make_tensor_from_batch vals device concatenate
      let tail ← ppGo batch first device concatenate aca major_attr sub_attr
        rest (used ++ [attr])
      pure (AttrOut.single r :: tail)
    else if attr == "*" then do
      let ks := first.keys.filter fun k =>
        !major_attr.contains k && !sub_attr.contains k && !used.contains k
      let outs ← ks.mapM fun k => do
        let vals ← collectVals batch k
        let r ← make_tensor_from_batch vals device
          (concatenate && aca.contains attr)
        pure (AttrOut.single r)
      let tail ← ppGo batch first device concatenate aca major_attr sub_attr
        rest used
      pure (outs ++ tail)
    else do
      let vals ← collectVals batch attr
      let r ← make_tensor_from_batch vals device
        (concatenate && aca.contains attr)
      let tail ← ppGo batch first device concatenate aca major_attr sub_attr
        rest (used ++ [attr])
      pure (AttrOut.single r :: tail)

/-- `Buffer.post_process_batch(batch, device, concatenate, sample_attrs,
additional_concat_attrs)`: `[None] * len(sample_attrs)` on an empty batch,
otherwise the per-attribute resolution loop over `sample_attrs`. -/
def post_process_batch (batch : List Transition) (device : String)
    (concatenate : Bool) (sample_attrs : List String) (aca : List String) :
    Except BufError (List AttrOut) :=
  match batch with
  | [] => .ok (sample_attrs.map fun _ => AttrOut.none)
  | first :: _ =>
    ppGo batch first device concatenate aca first.major_attr first.sub_attr
      sample_attrs []

/-- `Buffer.sample_batch(batch_size, concatenate, device, sample_method,
sample_attrs, additional_concat_attrs)` with the sample method given by
name.  The randomness oracles `perm`/`draws` parameterize the two random
strategies.  Mirrors the source order: method dispatch (unknown names raise
before anything else), sampling, the device default, the
`sample_attrs = batch[0].keys()` default (an index error when the batch is
empty), the `additional_concat_attrs = []` default, then post-processing;
returns the realized batch size with the resolved values. -/
def Buffer.sample_batch (b : Buffer) (perm draws : List Nat)
    (batch_size : Nat) (concatenate : Bool) (device : Option String)
    (sample_method : String) (sample_attrs : Option (List String))
    (additional_concat_attrs : Option (List String)) :
    Except BufError (Nat × List AttrOut) := do
  let (batch, bsz) ←
    if sample_method == "random_unique" then
      Except.ok (sample_method_random_unique perm b.buffer batch_size)
    else if sample_method == "random" then
      sample_method_random draws b.buffer batch_size
    else if sample_method == "all" then
      Except.ok (sample_method_all b.buffer batch_size)
    else Except.error (BufError.lookupErr sample_method)
  let dev := device.getD b.buffer_device
  let attrs ← match sample_attrs with
    | some l => Except.ok l
    | none =>
      match batch with
      | [] => Except.error BufError.indexErr
      | f :: _ => Except.ok f.keys
  let aca := additional_concat_attrs.getD []
  let out ← post_process_batch batch dev concatenate attrs aca
  pure (bsz, out)

/-! Concrete records and stores used by the concrete scenarios. -/

/-- A minimal-schema record: the three major attributes each hold one
sub-key "v" mapped to a one-row tensor `[[r]]` (initially on device "gpu" so
that relocation is observable), and the sub attributes hold the scalar
reward `r` and terminal flag 0. -/
def mkRec (r : Int) : Transition :=
  { major := [("state", [("v", TVal.tensor "gpu" [[r]])]),
              ("action", [("v", TVal.tensor "gpu" [[r]])]),
              ("next_state", [("v", TVal.tensor "gpu" [[r]])])],
    sub := [("reward", TVal.scalar r), ("terminal", TVal.scalar 0)],
    custom := [] }

/-- The capacity-2 store of the concrete ring-overwrite scenario after
appending `mkRec 1`, `mkRec 2`, `mkRec 3` in that order. -/
def scenarioBuf : Buffer :=
  ((({ buffer_size := 2, buffer_device := "cpu", buffer := [], index := 0
      : Buffer }).appendSt (mkRec 1)).appendSt (mkRec 2)).appendSt (mkRec 3)

/-- An empty capacity-3 store. -/
def emptyBuf : Buffer :=
  { buffer_size := 3, buffer_device := "cpu", buffer := [], index := 0 }

deriving instance DecidableEq for Except

/-- C2: the claim asserts the residents after appending R1, R2, R3 to a
capacity-2 store are R2 at slot 0 and R3 at slot 1, with `all`-sampling
rewards R2 then R3; in fact the third append overwrites slot 0, so the
residents are R3 then R2 and the sampled rewards come out R3 then R2. -/
theorem c2_ring_overwrite_counterexample :
    scenarioBuf.buffer.map (fun tr => tr.getAny "reward")
      = [some (TVal.scalar 3), some (TVal.scalar 2)] ∧
    scenarioBuf.buffer ≠ [(mkRec 2).to "cpu", (mkRec 3).to "cpu"] ∧
    scenarioBuf.sample_batch [] [] 2 true none "all" (some ["reward"]) none
      ≠ .ok (2, [.single (.tensor (.tensor "cpu" [[2], [3]]))]) := by
  decide

/-- C2 (amended): after appending R1, R2, R3 to the capacity-2 store,
`size()` is 2, the residents are R3 at slot 0 (it overwrote R1) and R2 at
slot 1, the write cursor is 1, and `sample_batch(2, sample_method="all")`
returns realized size 2 with reward values matching R3 then R2. -/
theorem c2_ring_overwrite_amended :
    scenarioBuf.size = 2 ∧
    scenarioBuf.buffer = [(mkRec 3).to "cpu", (mkRec 2).to "cpu"] ∧
    scenarioBuf.index = 1 ∧
    scenarioBuf.sample_batch [] [] 2 true none "all" (some ["reward"]) none
      = .ok (2, [.single (.tensor (.tensor "cpu" [[3], [2]]))]) := by
  decide

/-- C4: the claim asserts `clear()` resets the write cursor to 0; on the
reachable state `scenarioBuf` (whose cursor is 1), `clear()` empties the
item list but leaves the cursor at 1. -/
theorem c4_clear_counterexample :
    scenarioBuf.clear.buffer = [] ∧ scenarioBuf.clear.index ≠ 0 := by
  decide

/-- C4 (amended): for every store state, `clear()` empties the item list
(`size()` becomes 0) and leaves the write cursor unchanged — the source's
`clear` only calls `self.buffer.clear()` and never touches `self.index`. -/
theorem c4_clear_amended (b : Buffer) :
    b.clear.buffer = [] ∧ b.clear.size = 0 ∧ b.clear.index = b.index :=
  ⟨rfl, rfl, rfl⟩

/-- C1: the claim asserts the empty-store sample succeeds with an all-None
result even when no requested-attribute list is passed; in fact the
`sample_attrs = batch[0].keys()` default subscripts the empty batch and the
call fails with an index error (the docstring's "If batch size is zero, then
None for each sampled keys" promise is not met on this path), while with an
explicit attribute list the call does return size 0 and all-None values. -/
theorem c1_empty_store_sample_batch :
    emptyBuf.sample_batch [] [] 5 true none "random_unique" none none
      = .error .indexErr ∧
    emptyBuf.sample_batch [] [] 5 true none "all" none none
      = .error .indexErr ∧
    emptyBuf.sample_batch [] [] 5 true none "random_unique"
      (some ["state", "reward"]) none = .ok (0, [.none, .none]) ∧
    emptyBuf.sample_batch [] [] 5 true none "all"
      (some ["state", "reward"]) none = .ok (0, [.none, .none]) := by
  decide

/-- A record with one custom attribute "c" holding the scalar 7. -/
def recCustom : Transition :=
  { major := [("state", [("v", TVal.tensor "gpu" [[1]])]),
              ("action", [("v", TVal.tensor "gpu" [[1]])]),
              ("next_state", [("v", TVal.tensor "gpu" [[1]])])],
    sub := [("reward", TVal.scalar 1), ("terminal", TVal.scalar 0)],
    custom := [("c", TVal.scalar 7)] }

/-- The empty capacity-3 store after appending `recCustom`. -/
def bufCustom : Buffer := emptyBuf.appendSt recCustom

/-- C3: the wildcard branch of `post_process_batch` gates concatenation on
`attr in additional_concat_attrs` where `attr` is the literal string `"*"`,
not the expanded attribute's own name, contradicting the docstring's
"Custom Attributes specified in additional_concat_attrs will also be
concatenated": listing the custom key "c" leaves its values un-concatenated
(a raw list), while listing `"*"` concatenates them. -/
theorem c3_wildcard_concat_gate :
    bufCustom.sample_batch [] [] 1 true none "all" (some ["*"]) (some ["c"])
      = .ok (1, [.single (.raw [TVal.scalar 7])]) ∧
    bufCustom.sample_batch [] [] 1 true none "all" (some ["*"]) (some ["*"])
      = .ok (1, [.single (.tensor (.tensor "cpu" [[7]]))]) := by
  decide

/-- A record whose custom attribute "foo" makes its full key set equal to
`recB`'s even though the major∪sub key sets differ. -/
def recA : Transition :=
  { major := [("state", [("v", TVal.tensor "gpu" [[1]])]),
              ("action", [("v", TVal.tensor "gpu" [[1]])]),
              ("next_state", [("v", TVal.tensor "gpu" [[1]])])],
    sub := [("reward", TVal.scalar 1), ("terminal", TVal.scalar 0)],
    custom := [("foo", TVal.scalar 5)] }

/-- A record carrying "foo" as a sub attribute instead of a custom one: its
major∪sub key set differs from `recA`'s, its full key set does not. -/
def recB : Transition :=
  { major := [("state", [("v", TVal.tensor "gpu" [[2]])]),
              ("action", [("v", TVal.tensor "gpu" [[2]])]),
              ("next_state", [("v", TVal.tensor "gpu" [[2]])])],
    sub := [("reward", TVal.scalar 2), ("terminal", TVal.scalar 0),
            ("foo", TVal.scalar 6)],
    custom := [] }

/-- A record missing the required "reward" attribute. -/
def recMissing : Transition :=
  { major := [("state", [("v", TVal.tensor "gpu" [[4]])]),
              ("action", [("v", TVal.tensor "gpu" [[4]])]),
              ("next_state", [("v", TVal.tensor "gpu" [[4]])])],
    sub := [("terminal", TVal.scalar 0)],
    custom := [] }

/-- A capacity-5 store holding `recA`. -/
def storeA : Buffer :=
  ({ buffer_size := 5, buffer_device := "cpu", buffer := [], index := 0
    : Buffer }).appendSt recA

/-- C5: the claim asserts `append` raises a SchemaError whenever the
candidate's major∪sub key set differs from the established schema; the code
compares the full attribute key set (`transition.keys()`, covering custom
names), so a candidate whose major∪sub keys differ from the resident's but
whose full key set matches is admitted without error. -/
theorem c5_schema_counterexample :
    keySetEq (recA.major_attr ++ recA.sub_attr)
        (recB.major_attr ++ recB.sub_attr) = false ∧
    keySetEq ((recA.to "cpu").keys) recB.keys = true ∧
    (storeA.append recB requiredDefault).1 = .ok 1 ∧
    (storeA.append recB requiredDefault).2.1.size = 2 := by
  decide

/-- C5 (amended): when the candidate lacks a required attribute among its
major∪sub names, `append` fails with a SchemaError naming the required keys
absent from the candidate's full key set and leaves the store (items and
cursor) and the candidate unchanged; when the store is non-empty and the
candidate's full attribute key set differs as a set from the resident
record's, `append` fails with a SchemaError that carries no key names and
leaves the store unchanged. -/
theorem c5_append_schema_errors (b : Buffer) (tr : Transition)
    (req : List String) :
    (tr.has_keys req = false →
      b.append tr req
        = (.error (.schemaMissing (missingKeys tr req)), b, tr)) ∧
    (tr.has_keys req = true → ∀ f rest, b.buffer = f :: rest →
      keySetEq f.keys ((tr.to b.buffer_device).keys) = false →
      b.append tr req
        = (.error .schemaMismatch, b, tr.to b.buffer_device)) := by
  constructor
  · intro h
    simp [Buffer.append, h]
  · intro h f rest hb hk
    simp [Buffer.append, h, hb, hk]

/-- Witness for the amended C5 theorem: `recMissing` lacks "reward", and
`mkRec 9` (no "foo") clashes with the resident `recA`'s key set. -/
theorem c5_append_schema_errors_witness :
    (recMissing.has_keys requiredDefault = false ∧
      storeA.append recMissing requiredDefault
        = (.error (.schemaMissing (missingKeys recMissing requiredDefault)),
           storeA, recMissing)) ∧
    ((mkRec 9).has_keys requiredDefault = true ∧
      storeA.buffer = recA.to "cpu" :: [] ∧
      keySetEq ((recA.to "cpu").keys) (((mkRec 9).to "cpu").keys) = false ∧
      storeA.append (mkRec 9) requiredDefault
        = (.error .schemaMismatch, storeA, (mkRec 9).to "cpu")) :=
  ⟨⟨by decide,
    (c5_append_schema_errors storeA recMissing requiredDefault).1 (by decide)⟩,
   ⟨by decide, by decide, by decide,
    (c5_append_schema_errors storeA (mkRec 9) requiredDefault).2 (by decide)
      (recA.to "cpu") [] (by decide) (by decide)⟩⟩

/-- C7: the claim asserts the `random` strategy fails on an empty store for
every batch size; with `batch_size = 0` the draw loop makes no draws, so no
`random.randint(0, -1)` is evaluated and the call silently returns an empty
batch of size 0 — both at strategy level and through `sample_batch`. -/
theorem c7_random_empty_counterexample :
    sample_method_random [] ([] : List Transition) 0 = .ok ([], 0) ∧
    emptyBuf.sample_batch [] [] 0 true none "random" (some []) none
      = .ok (0, []) := by
  decide

/-- C7 (amended): for every batch size of at least 1, the `random`
(with-replacement) strategy on an empty store fails explicitly — its first
`random.randint(0, len(items) - 1)` hits an empty range. -/
theorem c7_random_empty_fails (draws : List Nat) (bs : Nat) (h : 1 ≤ bs) :
    sample_method_random draws ([] : List Transition) bs
      = .error .emptyRange := by
  have hbs : bs ≠ 0 := by omega
  simp [sample_method_random, hbs]

/-- Witness for the amended C7 theorem at batch size 5. -/
theorem c7_random_empty_fails_witness :
    1 ≤ 5 ∧
    sample_method_random [] ([] : List Transition) 5 = .error .emptyRange :=
  ⟨by decide, c7_random_empty_fails [] 5 (by decide)⟩

/-- Moving a value to a device twice is the same as moving it once. -/
theorem TVal.to_idem (v : TVal) (dev : String) : (v.to dev).to dev = v.to dev := by
  cases v <;> rfl

/-- A relocated record has every value on the target device. -/
theorem Transition.to_onDevice (tr : Transition) (dev : String) :
    (tr.to dev).onDevice dev = true := by
  simp [Transition.to, Transition.onDevice, List.all_map, Function.comp,
        TVal.to_idem]

/-- C10: when the store is non-empty, the candidate has the required
attributes, and its key set clashes with the resident schema, `append`
rejects it — yet the candidate returned by the call has already been
relocated to the store's device (`transition.to(self.buffer_device)` runs
before the mismatch check), while the store's items and cursor are
unchanged. -/
theorem c10_relocation_on_rejected_path (b : Buffer) (tr : Transition)
    (req : List String) (f : Transition) (rest : List Transition)
    (h1 : tr.has_keys req = true) (hb : b.buffer = f :: rest)
    (hk : keySetEq f.keys ((tr.to b.buffer_device).keys) = false) :
    b.append tr req = (.error .schemaMismatch, b, tr.to b.buffer_device) ∧
    (b.append tr req).2.2.onDevice b.buffer_device = true ∧
    (b.append tr req).2.1 = b := by
  have hmain : b.append tr req
      = (.error .schemaMismatch, b, tr.to b.buffer_device) := by
    simp [Buffer.append, h1, hb, hk]
  refine ⟨hmain, ?_, by rw [hmain]⟩
  rw [hmain]
  exact Transition.to_onDevice tr b.buffer_device

/-- Witness for C10: the resident `recA` rejects the candidate `mkRec 8`,
which comes back relocated to "cpu". -/
theorem c10_relocation_on_rejected_path_witness :
    (mkRec 8).has_keys requiredDefault = true ∧
    storeA.buffer = recA.to "cpu" :: [] ∧
    keySetEq ((recA.to "cpu").keys) (((mkRec 8).to "cpu").keys) = false ∧
    (storeA.append (mkRec 8) requiredDefault
        = (.error .schemaMismatch, storeA, (mkRec 8).to "cpu") ∧
      (storeA.append (mkRec 8) requiredDefault).2.2.onDevice "cpu" = true ∧
      (storeA.append (mkRec 8) requiredDefault).2.1 = storeA) :=
  ⟨by decide, by decide, by decide,
   c10_relocation_on_rejected_path storeA (mkRec 8) requiredDefault
     (recA.to "cpu") [] (by decide) (by decide) (by decide)⟩

/-- C8: selecting a sample method by a name that is not one of the three
registered strategies makes `sample_batch` fail, before any sampling, with
the lookup error carrying the invalid selector name (the source raises
`RuntimeError("Cannot find specified sample method: ...")`, the spec's
LookupError). -/
theorem c8_unknown_sample_method (b : Buffer) (perm draws : List Nat)
    (bs : Nat) (conc : Bool) (dev : Option String)
    (attrs aca : Option (List String)) (name : String)
    (h1 : name ≠ "random_unique") (h2 : name ≠ "random") (h3 : name ≠ "all") :
    b.sample_batch perm draws bs conc dev name attrs aca
      = .error (.lookupErr name) := by
  simp [Buffer.sample_batch, h1, h2, h3, Bind.bind, Except.bind]

/-- Witness for C8 at the selector name "bogus". -/
theorem c8_unknown_sample_method_witness :
    ("bogus" ≠ "random_unique" ∧ "bogus" ≠ "random" ∧ "bogus" ≠ "all") ∧
    emptyBuf.sample_batch [] [] 5 true none "bogus" none none
      = .error (.lookupErr "bogus") :=
  ⟨⟨by decide, by decide, by decide⟩,
   c8_unknown_sample_method emptyBuf [] [] 5 true none none none "bogus"
     (by decide) (by decide) (by decide)⟩

/-- Mapping index lookup over the full index range reproduces the list. -/
theorem map_getD_range {α : Type} (l : List α) (d : α) :
    (List.range l.length).map (fun i => l.getD i d) = l := by
  induction l with
  | nil => rfl
  | cons a t ih =>
    rw [List.length_cons, List.range_succ_eq_map, List.map_cons, List.map_map]
    have hc : ((fun i => (a :: t).getD i d) ∘ Nat.succ)
        = fun i => t.getD i d := by
      funext i
      simp [List.getD_cons_succ]
    rw [hc, List.getD_cons_zero, ih]

/-- C6: size contracts of the three strategies — `random_unique` realizes
exactly `min(batch_size, len(items))` items and returns a permutation of
the whole item list whenever `batch_size ≥ len(items)`; `random` on a
non-empty store realizes exactly `batch_size` items; `all` returns the item
list itself in storage order with `len(items)` as realized size. -/
theorem c6_sampling_size_contracts (buffer : List Transition)
    (batch_size : Nat) (perm draws : List Nat)
    (hperm : perm.Perm (List.range buffer.length)) :
    (sample_method_random_unique perm buffer batch_size).2
        = min batch_size buffer.length ∧
    (sample_method_random_unique perm buffer batch_size).1.length
        = min batch_size buffer.length ∧
    (buffer.length ≤ batch_size →
      (sample_method_random_unique perm buffer batch_size).1.Perm buffer) ∧
    (buffer ≠ [] → ∃ l, sample_method_random draws buffer batch_size
        = .ok (l, batch_size) ∧ l.length = batch_size) ∧
    sample_method_all buffer batch_size = (buffer, buffer.length) := by
  have hplen : perm.length = buffer.length := by
    simpa using hperm.length_eq
  refine ⟨?_, ?_, ?_, ?_, rfl⟩
  · unfold sample_method_random_unique
    dsimp only
    split <;> omega
  · unfold sample_method_random_unique
    dsimp only
    rw [List.length_map, List.length_take, hplen]
    split <;> omega
  · intro hle
    have hk : (if buffer.length < batch_size then buffer.length
        else batch_size) = buffer.length := by
      split <;> omega
    unfold sample_method_random_unique
    dsimp only
    rw [hk, ← hplen, List.take_length]
    have hmap := hperm.map fun i => buffer.getD i default
    rwa [map_getD_range] at hmap
  · intro hne
    have h0 : buffer.length ≠ 0 := by
      have := List.length_pos.mpr hne
      omega
    refine ⟨(List.range batch_size).map
        (fun i => buffer.getD (draws.getD i 0 % buffer.length) default),
      ?_, by simp⟩
    unfold sample_method_random
    rw [if_neg fun hc => h0 hc.2]

/-- Witness for C6 on a one-element buffer with batch size 2. -/
theorem c6_sampling_size_contracts_witness :
    ([0] : List Nat).Perm (List.range [(default : Transition)].length) ∧
    ((sample_method_random_unique [0] [(default : Transition)] 2).2
        = min 2 [(default : Transition)].length ∧
     (sample_method_random_unique [0] [(default : Transition)] 2).1.length
        = min 2 [(default : Transition)].length ∧
     ([(default : Transition)].length ≤ 2 →
       (sample_method_random_unique [0] [(default : Transition)] 2).1.Perm
         [(default : Transition)]) ∧
     ([(default : Transition)] ≠ [] → ∃ l,
        sample_method_random [0, 0] [(default : Transition)] 2 = .ok (l, 2)
          ∧ l.length = 2) ∧
     sample_method_all [(default : Transition)] 2
        = ([(default : Transition)], [(default : Transition)].length)) :=
  ⟨by decide,
   c6_sampling_size_contracts [(default : Transition)] 2 [0] [0, 0]
     (by decide)⟩

/-- A record whose sole attribute is the scalar sub attribute "reward". -/
def mkRewardRec (r : Int) : Transition :=
  { major := [], sub := [("reward", TVal.scalar r)], custom := [] }

/-- A store on device "cpu" holding one reward record per entry of `rs`. -/
def mkRewardBuf (rs : List Int) : Buffer :=
  { buffer_size := rs.length, buffer_device := "cpu",
    buffer := rs.map mkRewardRec, index := 0 }

/-- Concatenating a non-empty batch of scalars stacks them into one
single-column tensor on the target device, one row per scalar, in order. -/
theorem make_tensor_scalars (rs : List Int) (dev : String) (h : rs ≠ []) :
    make_tensor_from_batch (rs.map TVal.scalar) dev true
      = .ok (.tensor (.tensor dev (rs.map fun r => [r]))) := by
  cases rs with
  | nil => exact absurd rfl h
  | cons r rt =>
    simp [make_tensor_from_batch, TVal.isTensor, TVal.scalarVal,
          List.all_map, Function.comp, List.map_map]

/-- Cons-shaped restatement of `make_tensor_scalars` for rewriting. -/
theorem make_tensor_scalars_cons (r : Int) (rt : List Int) (dev : String) :
    make_tensor_from_batch (TVal.scalar r :: List.map TVal.scalar rt) dev true
      = .ok (.tensor (.tensor dev ([r] :: List.map (fun x => [x]) rt))) := by
  simpa using make_tensor_scalars (r :: rt) dev (by simp)

/-- Collecting the "reward" attribute across reward records yields the
reward scalars in order. -/
theorem collectVals_reward (rs : List Int) :
    collectVals (rs.map mkRewardRec) "reward" = .ok (rs.map TVal.scalar) := by
  induction rs with
  | nil => rfl
  | cons r rt ih =>
    simp [collectVals, Transition.getAny, mkRewardRec, ih,
          Bind.bind, Except.bind, pure, Except.pure]

/-- Cons-shaped restatement of `collectVals_reward` for rewriting. -/
theorem collectVals_reward_cons (r : Int) (rt : List Int) :
    collectVals (mkRewardRec r :: List.map mkRewardRec rt) "reward"
      = .ok (TVal.scalar r :: List.map TVal.scalar rt) := by
  simpa using collectVals_reward (r :: rt)

/-- The attribute names of a reward record. -/
theorem mkRewardRec_keys (r : Int) : (mkRewardRec r).keys = ["reward"] := rfl

/-- A reward record has no major attributes. -/
theorem mkRewardRec_major_attr (r : Int) :
    (mkRewardRec r).major_attr = [] := rfl

/-- A reward record's sole sub attribute is "reward". -/
theorem mkRewardRec_sub_attr (r : Int) :
    (mkRewardRec r).sub_attr = ["reward"] := rfl

/-- C9: the stacking rule — an empty value list yields `None`; with
concatenation disabled a non-empty list is returned unchanged; with
concatenation enabled a non-empty list of scalars becomes a single tensor
of shape `(N, 1)` (one single-entry row per sampled record, in order) on
the target device; and for a store of records whose sole sub-attribute
"reward" holds scalars `r_1 … r_n`, sampling all with concatenation yields
exactly that `(n, 1)` stack with the i-th row holding `r_i`. -/
theorem c9_stacking_rule (vals : List TVal) (dev : String) (conc : Bool) :
    make_tensor_from_batch [] dev conc = .ok .none ∧
    (vals ≠ [] → make_tensor_from_batch vals dev false = .ok (.raw vals)) ∧
    (∀ rs : List Int, vals = rs.map TVal.scalar → vals ≠ [] →
      make_tensor_from_batch vals dev true
        = .ok (.tensor (.tensor dev (rs.map fun r => [r])))) ∧
    (∀ rs : List Int, rs ≠ [] →
      (mkRewardBuf rs).sample_batch [] [] rs.length true none "all" none none
        = .ok (rs.length,
            [.single (.tensor (.tensor "cpu" (rs.map fun r => [r])))])) := by
  refine ⟨rfl, ?_, ?_, ?_⟩
  · intro h
    cases vals with
    | nil => exact absurd rfl h
    | cons v vt => rfl
  · intro rs hv hne
    subst hv
    refine make_tensor_scalars rs dev ?_
    intro hrs
    exact hne (by simp [hrs])
  · intro rs hne
    cases rs with
    | nil => exact absurd rfl hne
    | cons r rt =>
      simp [Buffer.sample_batch, mkRewardBuf, sample_method_all,
            post_process_batch, ppGo, mkRewardRec_keys, mkRewardRec_major_attr,
            mkRewardRec_sub_attr, collectVals_reward_cons,
            make_tensor_scalars_cons, Bind.bind, Except.bind, pure,
            Except.pure]

/-- Witness for C9 with scalars 4 and 5. -/
theorem c9_stacking_rule_witness :
    ([TVal.scalar 4, TVal.scalar 5] ≠ ([] : List TVal)) ∧
    make_tensor_from_batch [TVal.scalar 4, TVal.scalar 5] "cpu" false
      = .ok (.raw [TVal.scalar 4, TVal.scalar 5]) ∧
    make_tensor_from_batch [TVal.scalar 4, TVal.scalar 5] "cpu" true
      = .ok (.tensor (.tensor "cpu" [[4], [5]])) ∧
    (mkRewardBuf [4, 5]).sample_batch [] [] [(4 : Int), 5].length true none
        "all" none none
      = .ok ([(4 : Int), 5].length,
          [.single (.tensor (.tensor "cpu" [[4], [5]]))]) :=
  ⟨by decide,
   (c9_stacking_rule [TVal.scalar 4, TVal.scalar 5] "cpu" true).2.1
     (by decide),
   (c9_stacking_rule [TVal.scalar 4, TVal.scalar 5] "cpu" true).2.2.1 [4, 5]
     rfl (by decide),
   (c9_stacking_rule [] "cpu" true).2.2.2 [4, 5] (by decide)⟩
